import Mathlib

/-!
# Product Discovery Subsystem — verification development

Shallow embedding of the search / similarity / recommendation core of the
`ecommerce` repository (Django apps under `apps/search`), together with
theorems checking the natural-language specification against the code.

Source files embedded:
* `apps/search/tasks.py` — `update_product_similarities` (similarity job)
* `apps/search/views.py` — `SearchAPIView.post`, `RecommendationAPIView`
  (defined twice at module level; the second definition at line 339 is the
  one Python binds and `urls.py` routes)
* `apps/search/serializers.py` — `AdvancedSearchSerializer`,
  `RecommendationRequestSerializer`
* `apps/search/models.py` — `ProductSimilarity`, `SearchQuery`,
  `RecommendationEvent`

Numeric values (prices, similarity scores, ratings) are modelled over `ℚ`;
database ids over `ℕ`.
-/

namespace Ecommerce

/-- A catalog product, with the fields the search app reads
(`apps/products` `Product` model fields used in `views.py` / `tasks.py`):
`id`, `name`, `description`, `category_id`, `price`, `stock`, `is_active`,
`created_at`, the ratings of its reviews (`reviews__rating`), and its view
count (`views`). -/
structure Product where
  id : Nat
  name : String
  description : String
  categoryId : Nat
  price : ℚ
  stock : Nat
  isActive : Bool
  createdAt : Nat
  ratings : List Nat
  viewCount : Nat
deriving Repr, DecidableEq

/-- `apps/search/models.py` `ProductSimilarity`: one precomputed similarity
edge `(product_a_id, product_b_id, similarity_score)`. -/
structure ProductSimilarity where
  productA : Nat
  productB : Nat
  score : ℚ
deriving Repr, DecidableEq

/-- `Avg("reviews__rating")`: SQL `AVG` of the product's review ratings,
`NULL` (here `none`) when the product has no reviews. -/
def Product.avgRating (p : Product) : Option ℚ :=
  if p.ratings.isEmpty then none
  else some (mkRat (p.ratings.sum : Int) p.ratings.length)

/-- The `0.1` threshold of `tasks.py` line 78 (`if score > 0.1`). -/
def similarityThreshold : ℚ := mkRat 1 10


/-! ## Similarity precomputation job (`apps/search/tasks.py`, lines 15–100)

`update_product_similarities` builds a TF‑IDF/cosine similarity matrix over
the active products' documents and replaces the `ProductSimilarity` table
with the top matches.  The numeric pipeline
(`TfidfVectorizer.fit_transform` + `cosine_similarity`, lines 46–52) runs in
floating point inside a `try`; we embed it as an explicit argument of type
`Except String (Nat → Nat → ℚ)`: `.ok M` is the computed similarity matrix
(indexed by position in the active-product list), `.error e` is an exception
raised during vectorization or matrix computation.  A separate flag models
an exception raised by the database write inside `transaction.atomic()`
(lines 55–94): Django rolls the transaction back, so the store is left
unchanged, and the surrounding `except` swallows the exception. -/

/-- Stable ascending insertion of an `(index, value)` pair: equal values keep
the earlier original index first, matching `np.argsort`'s behaviour of
returning `arange(n)` on a constant row. -/
def insertAsc (x : Nat × ℚ) : List (Nat × ℚ) → List (Nat × ℚ)
  | [] => [x]
  | y :: ys => if x.2 ≤ y.2 then x :: y :: ys else y :: insertAsc x ys

/-- Stable ascending sort of `(index, value)` pairs by value. -/
def sortPairsAsc : List (Nat × ℚ) → List (Nat × ℚ)
  | [] => []
  | x :: xs => insertAsc x (sortPairsAsc xs)

/-- `np.argsort(row)`: the indices of `row` sorted by ascending value
(stable on ties). -/
def argsort (row : List ℚ) : List Nat :=
  (sortPairsAsc row.enum).map (·.1)

/-- Python `lst[-k:]`: the last `k` elements (all of them when `k ≥ len`). -/
def lastN (k : Nat) (l : List Nat) : List Nat :=
  l.drop (l.length - k)

/-- Lines 63–85: the edges contributed by anchor index `i`:
`top_indices = np.argsort(similarity_matrix[i])[-11:]`, then for each `j`
skip `i == j` and keep `score > 0.1`. -/
def anchorBlock (ids : List Nat) (M : Nat → Nat → ℚ) (i : Nat) :
    List ProductSimilarity :=
  let row := (List.range ids.length).map (M i)
  let top := lastN 11 (argsort row)
  (top.filter (fun j => decide (j ≠ i) && decide (M i j > similarityThreshold))).map
    (fun j => ⟨ids.getD i 0, ids.getD j 0, M i j⟩)

/-- Lines 63–94: the full set of new similarity rows created by one run
(the `batch_size` chunking of `bulk_create` does not change the final
contents). -/
def computeSimilarities (ids : List Nat) (M : Nat → Nat → ℚ) :
    List ProductSimilarity :=
  (List.range ids.length).flatMap (anchorBlock ids M)

/-- Outcome of one run of the task: the resulting edge store and whether the
task itself raised an exception to its caller. -/
structure JobResult where
  store : List ProductSimilarity
  raised : Bool
deriving Repr, DecidableEq

/-- `update_product_similarities` (lines 15–100).  `store` is the
`ProductSimilarity` table before the run, `products` the catalog,
`matrixResult` the outcome of the TF‑IDF/cosine computation, and
`dbWriteFails` whether the bulk insert inside `transaction.atomic()` raises.
Early return when fewer than two active products exist (lines 27–29); any
exception from the `try` block is caught and logged (lines 99–100), with the
atomic transaction rolled back, so the store is unchanged and nothing is
re-raised. -/
def update_product_similarities (store : List ProductSimilarity)
    (products : List Product) (matrixResult : Except String (Nat → Nat → ℚ))
    (dbWriteFails : Bool) : JobResult :=
  let active := products.filter (·.isActive)
  if active.length ≤ 1 then
    { store := store, raised := false }
  else
    match matrixResult with
    | .error _ => { store := store, raised := false }
    | .ok M =>
        if dbWriteFails then { store := store, raised := false }
        else { store := computeSimilarities (active.map (·.id)) M,
               raised := false }

/-! ## Search request validation (`apps/search/serializers.py`, lines 42–71)

`AdvancedSearchSerializer`.  A raw request field is `none` when absent (or
JSON `null`, for the `allow_null` fields); defaults are applied by
`validatedSearch`. -/

/-- The raw body of a `POST /search` request, field by field as declared by
`AdvancedSearchSerializer`. -/
structure RawSearchRequest where
  query : Option String := none
  categoryId : Option Int := none
  minPrice : Option ℚ := none
  maxPrice : Option ℚ := none
  inStock : Option Bool := none
  rating : Option Int := none
  sortBy : Option String := none
  page : Option Int := none
  limit : Option Int := none
deriving Repr, DecidableEq

/-- The `choices` list of the `sort_by` `ChoiceField`
(`serializers.py` lines 57–65). -/
def sortByChoices : List String :=
  ["price_asc", "price_desc", "name_asc", "name_desc", "rating", "newest",
   "popularity"]

/-- `AdvancedSearchSerializer.is_valid()`: per-field constraints —
`min_price ≥ 0`, `max_price ≥ 0`, `rating ∈ [1,5]`, `sort_by` one of the
declared choices, `page ≥ 1`, `1 ≤ limit ≤ 50`.  Absent fields are filled
with their defaults and pass validation. -/
def AdvancedSearchSerializer_isValid (r : RawSearchRequest) : Bool :=
  (match r.minPrice with | none => true | some m => decide (0 ≤ m)) &&
  (match r.maxPrice with | none => true | some m => decide (0 ≤ m)) &&
  (match r.rating with | none => true | some k => decide (1 ≤ k) && decide (k ≤ 5)) &&
  (match r.sortBy with | none => true | some s => sortByChoices.contains s) &&
  (match r.page with | none => true | some p => decide (1 ≤ p)) &&
  (match r.limit with | none => true | some l => decide (1 ≤ l) && decide (l ≤ 50))

/-- The validated data read by `SearchAPIView.post` (`views.py` lines
40–49), with the serializer defaults applied: `query` defaults to `""`,
`sort_by` to `"relevance"`, `page` to `1`, `limit` to `20`. -/
structure SearchRequest where
  query : String := ""
  categoryId : Option Int := none
  minPrice : Option ℚ := none
  maxPrice : Option ℚ := none
  inStock : Option Bool := none
  rating : Option Int := none
  sortBy : String := "relevance"
  page : Nat := 1
  limit : Nat := 20
deriving Repr, DecidableEq

/-- Apply the serializer defaults to a (valid) raw request. -/
def validatedSearch (r : RawSearchRequest) : SearchRequest :=
  { query := r.query.getD ""
    categoryId := r.categoryId
    minPrice := r.minPrice
    maxPrice := r.maxPrice
    inStock := r.inStock
    rating := r.rating
    sortBy := r.sortBy.getD "relevance"
    page := (r.page.getD 1).toNat
    limit := (r.limit.getD 20).toNat }

/-! ## Search engine (`apps/search/views.py`, `SearchAPIView.post`,
lines 35–168) -/

/-- Python truthiness of an optional integer: `None` and `0` are falsy. -/
def truthyInt : Option Int → Bool
  | none => false
  | some n => n != 0

/-- Python truthiness of an optional decimal: `None` and `0` are falsy. -/
def truthyRat : Option ℚ → Bool
  | none => false
  | some q => q != 0

/-- `hay` starts with `pat` (character lists). -/
def startsWithChars : List Char → List Char → Bool
  | _, [] => true
  | [], _ :: _ => false
  | c :: cs, d :: ds => c == d && startsWithChars cs ds

/-- `pat` occurs contiguously somewhere in `hay`. -/
def hasSubstringChars : List Char → List Char → Bool
  | [], pat => pat.isEmpty
  | c :: cs, pat => startsWithChars (c :: cs) pat || hasSubstringChars cs pat

/-- Django `icontains`: case-insensitive substring containment. -/
def icontains (hay needle : String) : Bool :=
  hasSubstringChars hay.toLower.toList needle.toLower.toList

/-- The PostgreSQL full-text machinery of the `try` block (`views.py`
lines 82–95): whether it is `available` (the `except` branch of line 96
models it being unavailable), which products match `SearchQuery`, and the
`SearchRank` value used by `order_by("-rank")`. -/
structure FtsBackend where
  available : Bool
  ftsMatch : Product → Bool
  ftsRank : Product → ℚ

/-- Lines 75–98: the text-search stage.  Empty `query_text` is falsy, so no
text filter applies; otherwise the full-text filter, or the
`icontains`-on-name-or-description fallback when full text is unavailable. -/
def applyTextStage (fts : FtsBackend) (q : String) (l : List Product) :
    List Product :=
  if q = "" then l
  else if fts.available then l.filter fts.ftsMatch
  else l.filter (fun p => icontains p.name q || icontains p.description q)

/-- Lines 100–116: the conjunctive filters.  `category_id` is guarded by
Python truthiness (`if category_id:`), so `0` disables the filter;
`min_price`/`max_price`/`rating` are guarded by `is not None`; `in_stock`
by truthiness (`if in_stock:`). -/
def applyFilters (req : SearchRequest) (l : List Product) : List Product :=
  let l1 := if truthyInt req.categoryId then
      l.filter (fun p => (p.categoryId : Int) == req.categoryId.getD 0)
    else l
  let l2 := match req.minPrice with
    | none => l1
    | some m => l1.filter (fun p => decide (m ≤ p.price))
  let l3 := match req.maxPrice with
    | none => l2
    | some m => l2.filter (fun p => decide (p.price ≤ m))
  let l4 := if req.inStock.getD false then l3.filter (fun p => decide (0 < p.stock))
    else l3
  match req.rating with
  | none => l4
  | some k => l4.filter (fun p =>
      match p.avgRating with
      | none => false          -- SQL: AVG is NULL, `NULL >= k` is not true
      | some a => decide ((k : ℚ) ≤ a))

/-- Stable insertion of `x` into a list sorted by `le`. -/
def insertSorted (le : Product → Product → Bool) (x : Product) :
    List Product → List Product
  | [] => [x]
  | y :: ys => if le x y then x :: y :: ys else y :: insertSorted le x ys

/-- Stable insertion sort by `le`. -/
def sortProductsBy (le : Product → Product → Bool) :
    List Product → List Product
  | [] => []
  | x :: xs => insertSorted le x (sortProductsBy le xs)

/-- `ORDER BY key DESC` over a nullable key in PostgreSQL: descending, with
`NULL` keys sorting first. -/
def descNullsFirst (a b : Option ℚ) : Bool :=
  match a, b with
  | none, _ => true
  | some _, none => false
  | some x, some y => decide (y ≤ x)

/-- Lines 119–136 (plus the `order_by("-rank")` of line 95 for
`relevance` with full text available): the requested sort order.  Any other
case (notably `relevance` with empty `query_text`, or with full text
unavailable) leaves the queryset with the database's default order, i.e. the
list as built. -/
def applySort (fts : FtsBackend) (req : SearchRequest) (l : List Product) :
    List Product :=
  if req.sortBy = "price_asc" then
    sortProductsBy (fun x y => decide (x.price ≤ y.price)) l
  else if req.sortBy = "price_desc" then
    sortProductsBy (fun x y => decide (y.price ≤ x.price)) l
  else if req.sortBy = "name_asc" then
    sortProductsBy (fun x y => decide (x.name ≤ y.name)) l
  else if req.sortBy = "name_desc" then
    sortProductsBy (fun x y => decide (y.name ≤ x.name)) l
  else if req.sortBy = "rating" then
    sortProductsBy (fun x y => descNullsFirst x.avgRating y.avgRating) l
  else if req.sortBy = "newest" then
    sortProductsBy (fun x y => decide (y.createdAt ≤ x.createdAt)) l
  else if req.sortBy = "popularity" then
    sortProductsBy (fun x y => decide (y.viewCount ≤ x.viewCount)) l
  else if req.sortBy = "relevance" && req.query != "" && fts.available then
    sortProductsBy (fun x y => decide (fts.ftsRank y ≤ fts.ftsRank x)) l
  else l

/-- Lines 72–116: the set of catalog entries matching the request — active
products passing the text stage and all conjunctive filters.  Its size is
the `queryset.count()` of line 139. -/
def searchMatches (fts : FtsBackend) (catalog : List Product)
    (req : SearchRequest) : List Product :=
  applyFilters req (applyTextStage fts req.query (catalog.filter (·.isActive)))

/-- The response dict built at lines 149–155. -/
structure SearchResponse where
  results : List Product
  total : Nat
  page : Nat
  limit : Nat
  pages : Nat
deriving Repr, DecidableEq

/-- Lines 72–155: filter, sort, count, paginate
(`offset = (page - 1) * limit`, slice `[offset : offset + limit]`), and
`pages = (total + limit - 1) // limit`. -/
def runSearch (fts : FtsBackend) (catalog : List Product)
    (req : SearchRequest) : SearchResponse :=
  let filtered := searchMatches fts catalog req
  let sorted := applySort fts req filtered
  let total := filtered.length
  let offset := (req.page - 1) * req.limit
  { results := (sorted.drop offset).take req.limit
    total := total
    page := req.page
    limit := req.limit
    pages := (total + req.limit - 1) / req.limit }

/-! ## Search caching and query logging (`views.py` lines 51–68 and
157–168, with the cache facade of `apps/core/cache.py`)

`cached_search_results` / `cache_search_results` derive the key from the
query text and the `cache_filters` dict of lines 52–61; the md5-of-sorted-
json derivation of `get_cache_key` is injective on the dict contents, so we
model the key as the record of those contents.  Note line 54:
`str(min_price) if min_price else None` — a `min_price` of `0` is falsy and
keys as `None`. -/

/-- The cache key contents: `(query_text, cache_filters)`. -/
structure SearchCacheKey where
  query : String
  categoryId : Option Int
  minPrice : Option ℚ
  maxPrice : Option ℚ
  inStock : Option Bool
  rating : Option Int
  sortBy : String
  page : Nat
  limit : Nat
deriving Repr, DecidableEq

/-- Lines 52–61: build the cache key for a request. -/
def searchCacheKey (req : SearchRequest) : SearchCacheKey :=
  { query := req.query
    categoryId := req.categoryId
    minPrice := if truthyRat req.minPrice then req.minPrice else none
    maxPrice := if truthyRat req.maxPrice then req.maxPrice else none
    inStock := req.inStock
    rating := req.rating
    sortBy := req.sortBy
    page := req.page
    limit := req.limit }

/-- One `SearchQuery` analytics row (`models.py` lines 8–30), as created at
`views.py` lines 163–165. -/
structure SearchLogRow where
  queryText : String
  resultsCount : Nat
deriving Repr, DecidableEq

/-- The mutable state touched by `SearchAPIView.post`: the search-results
cache and the `SearchQuery` log table. -/
structure SearchState where
  cache : List (SearchCacheKey × SearchResponse)
  queryLog : List SearchLogRow
deriving Repr, DecidableEq

/-- Cache lookup (most recent write for a key wins). -/
def lookupSearchCache (cache : List (SearchCacheKey × SearchResponse))
    (key : SearchCacheKey) : Option SearchResponse :=
  (cache.find? (fun kv => kv.1 == key)).map (·.2)

/-- `SearchAPIView.post` (lines 35–168), after successful validation:
cache probe (only for non-empty `query_text`, lines 63–65), early return on
a hit (lines 67–68), otherwise compute, cache (lines 157–159) and append a
`SearchQuery` row when the caller is authenticated and `query_text` is
non-empty (lines 161–165). -/
def searchPost (fts : FtsBackend) (catalog : List Product)
    (st : SearchState) (authenticated : Bool) (req : SearchRequest) :
    SearchResponse × SearchState :=
  let key := searchCacheKey req
  let cachedResults :=
    if req.query != "" then lookupSearchCache st.cache key else none
  match cachedResults with
  | some resp => (resp, st)
  | none =>
      let resp := runSearch fts catalog req
      let cache' := if req.query != "" then (key, resp) :: st.cache else st.cache
      let log' :=
        if authenticated && req.query != "" then
          st.queryLog ++ [{ queryText := req.query, resultsCount := resp.total }]
        else st.queryLog
      (resp, { cache := cache', queryLog := log' })

/-! ## Recommendation service (`apps/search/views.py`;
`serializers.py` lines 22–32)

`views.py` defines `RecommendationAPIView` **twice** at module level: a
complete class at line 171 and a second one at line 339.  Python binds the
name to the second definition, so that is the class `urls.py` routes — and
it is broken: it inherits only from `APIView` and never defines
`_record_recommendation_events` (every call to it raises
`AttributeError`), and its `get_category_recommendations` body ends at
line 429 right after building the queryset, returning `None`.  The
embedding below follows the live second class.  The per-strategy *result
lists* (`get_similar_products` below) are computed by code that is
textually identical in both classes (first class lines 207–244, live class
lines 375–412), before the live class's crash point. -/

/-- `RecommendationRequestSerializer.validate` (lines 27–32): rejects when
both `attrs.get("product_id")` and `attrs.get("category_id")` are falsy
(absent, `None`, or `0`). -/
def RecommendationRequestSerializer_validate
    (productId categoryId : Option Int) : Bool :=
  truthyInt productId || truthyInt categoryId

/-- One `RecommendationEvent` row (`models.py` lines 59–89): the click
endpoint creates `"click"` rows; `"impression"` rows would be bulk-created
by the recommendation view's `_record_recommendation_events`, a method the
live class does not have. -/
structure RecommendationEvent where
  productId : Nat
  eventType : String
  source : String
  position : Nat
deriving Repr, DecidableEq

/-- `Product.objects.get(id=product_id, is_active=True)` (live class line
377; identically line 209 in the shadowed first class). -/
def findActiveProduct (catalog : List Product) (pid : Int) : Option Product :=
  catalog.find? (fun p => (p.id : Int) == pid && p.isActive)

/-- Live class lines 384–393 (identically 216–225), the filter: active
products that are the `product_b` of an edge whose `product_a` is the seed
(`similarities_as_b__product_a`), or the `product_a` of an edge whose
`product_b` is the seed (`similarities_as_a__product_b`). -/
def precomputedCandidates (edges : List ProductSimilarity)
    (catalog : List Product) (seed : Product) : List Product :=
  catalog.filter (fun p => p.isActive &&
    (edges.any (fun e => e.productB == p.id && e.productA == seed.id) ||
     edges.any (fun e => e.productA == p.id && e.productB == seed.id)))

/-- Live class line 391 (identically 223),
`annotate(similarity=F("similarities_as_b__similarity_score"))` restricted
by the filter's join: the score of the edge seed → p, `NULL` for products
matched only through the other arm of the `Q`. -/
def simScore (edges : List ProductSimilarity) (seed p : Product) :
    Option ℚ :=
  (edges.find? (fun e => e.productB == p.id && e.productA == seed.id)).map
    (·.score)

/-- The result list computed by `get_similar_products` (live class lines
375–401, textually identical to the shadowed class's 207–244): the
precomputed candidates ordered by the annotated similarity descending and
truncated to `limit`; if that is empty (`if not similar_products:`), the
same-category active products excluding the seed, newest first, truncated
to `limit`.  The live method computes, serializes and caches this list
(lines 403–407) before crashing at line 410. -/
def get_similar_products (edges : List ProductSimilarity)
    (catalog : List Product) (seed : Product) (limit : Nat) : List Product :=
  let pre := (sortProductsBy
      (fun x y => descNullsFirst (simScore edges seed x)
        (simScore edges seed y))
      (precomputedCandidates edges catalog seed)).take limit
  if pre.isEmpty then
    (sortProductsBy (fun x y => decide (y.createdAt ≤ x.createdAt))
      (catalog.filter (fun p =>
        p.categoryId == seed.categoryId && p.isActive &&
          !(p.id == seed.id)))).take limit
  else pre

/-- The `top_products` queryset built by `get_category_recommendations`
(live class lines 422–427; the shadowed class's complete version at
246–270 would return it): active products of the category, by average
review rating descending (`NULL` ratings first under PostgreSQL `DESC`),
truncated to `limit`.  The live method never returns this list: its body
ends at line 429. -/
def get_category_recommendations (catalog : List Product)
    (categoryId : Int) (limit : Nat) : List Product :=
  (sortProductsBy (fun x y => descNullsFirst x.avgRating y.avgRating)
    (catalog.filter (fun p =>
      (p.categoryId : Int) == categoryId && p.isActive))).take limit

/-- Key of the recommendations cache: `(strategy, anchor id, limit)`
(`cached_recommendations(rec_type, identifier, limit)` in
`apps/core/cache.py`). -/
structure RecCacheKey where
  strategy : String
  anchorId : Int
  limit : Nat
deriving Repr, DecidableEq

/-- HTTP outcome of the live `RecommendationAPIView.post` (the second
class definition, `views.py` lines 339–430):

* `invalid` — 400 from serializer validation (lines 343–345);
* `notFound` — 404, unknown product (378–381) or category (416–420);
* `attrError` — server error: `AttributeError` on the missing
  `_record_recommendation_events` (cache-hit paths at lines 356–359 and
  363–366, fresh product path at line 410);
* `noneResponse` — server error: the truncated
  `get_category_recommendations` falls off its end at line 429 and the
  view returns `None`;
* `noResponse` — `post` itself falls through (lines 370–373; unreachable
  after successful validation). -/
inductive RecOutcome where
  | invalid
  | notFound
  | attrError
  | noneResponse
  | noResponse
deriving Repr, DecidableEq

/-- Effect of one live recommendation request: the HTTP outcome, the
`RecommendationEvent` rows bulk-created during the request, and the
recommendations cache after it. -/
structure RecResult where
  outcome : RecOutcome
  eventsCreated : List RecommendationEvent
  recCache : List (RecCacheKey × List Product)
deriving Repr, DecidableEq

/-- The live `RecommendationAPIView.post` (lines 342–373) with its strategy
methods (375–429): validation; cache probe (a cached *empty* list is falsy
at `if cached_data:` and counts as a miss); product-seeded path first
(`if product_id:`), category path only when `product_id` is falsy.  On a
truthy cache hit the impression-recording call raises `AttributeError`
*before* the `return Response(cached_data)`; the fresh product path
computes the similar-products list and writes it to the cache (line 407)
and then raises the same `AttributeError` (line 410); the category path
404s on an unknown id and otherwise returns `None`.  No path returns 200
and no path creates an event row. -/
def recommendationPost (edges : List ProductSimilarity)
    (catalog : List Product) (categories : List Nat)
    (recCache : List (RecCacheKey × List Product))
    (productId categoryId : Option Int) (limit : Nat) : RecResult :=
  if !(RecommendationRequestSerializer_validate productId categoryId) then
    { outcome := .invalid, eventsCreated := [], recCache := recCache }
  else if truthyInt productId then
    match (recCache.find? (fun kv =>
        kv.1 == ⟨"product", productId.getD 0, limit⟩)).map (·.2) with
    | some cached =>
        if !cached.isEmpty then
          { outcome := .attrError, eventsCreated := [], recCache := recCache }
        else
          match findActiveProduct catalog (productId.getD 0) with
          | none =>
              { outcome := .notFound, eventsCreated := [],
                recCache := recCache }
          | some seed =>
              { outcome := .attrError, eventsCreated := [],
                recCache := (⟨"product", productId.getD 0, limit⟩,
                  get_similar_products edges catalog seed limit) :: recCache }
    | none =>
        match findActiveProduct catalog (productId.getD 0) with
        | none =>
            { outcome := .notFound, eventsCreated := [], recCache := recCache }
        | some seed =>
            { outcome := .attrError, eventsCreated := [],
              recCache := (⟨"product", productId.getD 0, limit⟩,
                get_similar_products edges catalog seed limit) :: recCache }
  else if truthyInt categoryId then
    match (recCache.find? (fun kv =>
        kv.1 == ⟨"category", categoryId.getD 0, limit⟩)).map (·.2) with
    | some cached =>
        if !cached.isEmpty then
          { outcome := .attrError, eventsCreated := [], recCache := recCache }
        else
          if categories.any (fun c => (c : Int) == categoryId.getD 0) then
            { outcome := .noneResponse, eventsCreated := [],
              recCache := recCache }
          else
            { outcome := .notFound, eventsCreated := [], recCache := recCache }
    | none =>
        if categories.any (fun c => (c : Int) == categoryId.getD 0) then
          { outcome := .noneResponse, eventsCreated := [],
            recCache := recCache }
        else
          { outcome := .notFound, eventsCreated := [], recCache := recCache }
  else
    { outcome := .noResponse, eventsCreated := [], recCache := recCache }

/-! ## Derived measures and sample data -/

/-- Number of edges in a store anchored at product `a` (edges with
`product_a = a`). -/
def anchorCount (a : Nat) (store : List ProductSimilarity) : Nat :=
  (store.filter (fun e => e.productA == a)).length

/-- Twelve textually identical active products (same name, description and
category, hence the same TF‑IDF document); ids `1`–`12`.  The cosine
similarity of the identical (nonzero) TF‑IDF vectors of any two of them is
exactly `1`, so `cosine_similarity` yields the all-ones matrix. -/
def identicalProduct (k : Nat) : Product :=
  { id := k + 1, name := "Premium Headphones",
    description := "Noise cancelling premium headphones", categoryId := 1,
    price := 199, stock := 10, isActive := true, createdAt := 0,
    ratings := [], viewCount := 0 }

/-- The catalog of twelve identical products. -/
def identicalCatalog : List Product := (List.range 12).map identicalProduct

/-- Sample product: active headphones, category 1, one 5-star review. -/
def prodA : Product :=
  { id := 1, name := "Premium Headphones",
    description := "Noise cancelling premium headphones", categoryId := 1,
    price := 199, stock := 10, isActive := true, createdAt := 0,
    ratings := [5], viewCount := 3 }

/-- Sample product: active speaker, category 1, no reviews. -/
def prodB : Product :=
  { id := 2, name := "Bluetooth Speaker",
    description := "Portable bluetooth speaker with deep bass",
    categoryId := 1, price := 99, stock := 15, isActive := true,
    createdAt := 1, ratings := [], viewCount := 0 }

/-- A two-product catalog for witnesses. -/
def twoProducts : List Product := [prodA, prodB]

/-- A sample similarity matrix for the two-product catalog. -/
def twoMatrix : Nat → Nat → ℚ := fun i j => if i == j then 1 else mkRat 1 2

/-- A trivial full-text backend: unavailable, so the `icontains` fallback is
used. -/
def noFts : FtsBackend :=
  { available := false, ftsMatch := fun _ => false, ftsRank := fun _ => 0 }

/-- A browse request (no query text) with `categoryID = 0`. -/
def reqCat0 : SearchRequest := { categoryId := some 0 }

/-- A browse request far beyond the last page: `limit = 1`, `page = 5`. -/
def reqPage5 : SearchRequest := { page := 5, limit := 1 }

/-- A text search request for `"premium"` by an authenticated caller. -/
def reqPremium : SearchRequest := { query := "premium" }

/-- A cached response sitting under `reqPremium`'s cache key. -/
def respHit : SearchResponse :=
  { results := [prodA], total := 7, page := 1, limit := 20, pages := 1 }

/-- A search state whose cache already holds `reqPremium`'s key. -/
def stHit : SearchState :=
  { cache := [(searchCacheKey reqPremium, respHit)], queryLog := [] }

/-- An empty search state. -/
def stEmpty : SearchState := { cache := [], queryLog := [] }

/-! ## Theorems -/

theorem similarityThreshold_eq : similarityThreshold = 1 / 10 := by
  norm_num [similarityThreshold, Rat.mkRat_eq_div]

/-- **C1.** For every catalog state and every run of
`update_product_similarities`, the replacement of the similarity edge store
is all-or-nothing: the task never raises; an exception during
vectorization/similarity computation (`.error`) or during the database
write (`dbWriteFails`) leaves the store exactly as before; and a completed
replacement run leaves exactly the newly computed edges (every old edge
gone). -/
theorem similarity_job_atomic (store : List ProductSimilarity)
    (products : List Product) (matrixResult : Except String (Nat → Nat → ℚ))
    (dbWriteFails : Bool) :
    (update_product_similarities store products matrixResult
        dbWriteFails).raised = false
    ∧ (∀ e, matrixResult = .error e →
        update_product_similarities store products matrixResult dbWriteFails
          = ⟨store, false⟩)
    ∧ (dbWriteFails = true →
        (update_product_similarities store products matrixResult
          dbWriteFails).store = store)
    ∧ (∀ M, matrixResult = .ok M → dbWriteFails = false →
        2 ≤ (products.filter (·.isActive)).length →
        (update_product_similarities store products matrixResult
            dbWriteFails).store
          = computeSimilarities ((products.filter (·.isActive)).map (·.id))
              M) := by
  unfold update_product_similarities
  by_cases h : (products.filter (·.isActive)).length ≤ 1
  · exact ⟨by simp [h], fun e he => by simp [h], fun hdb => by simp [h],
      fun M hM hdb hcnt => by omega⟩
  · cases matrixResult with
    | error e =>
        exact ⟨by simp [h], fun e' he' => by simp [h],
          fun hdb => by simp [h], fun M hM => nomatch hM⟩
    | ok M =>
        cases dbWriteFails with
        | true =>
            refine ⟨?_, ?_, ?_, ?_⟩
            · simp [h]
            · intro e he
              exact Except.noConfusion he
            · intro _
              simp [h]
            · intro M' _ hdb
              exact Bool.noConfusion hdb
        | false =>
            refine ⟨?_, ?_, ?_, ?_⟩
            · simp [h]
            · intro e he
              exact Except.noConfusion he
            · intro hdb
              exact Bool.noConfusion hdb
            · intro M' hM' _ hcnt
              injection hM' with hMeq
              subst hMeq
              simp [h]

/-- Witness for C1 at concrete inputs: a failed run keeps the store, a
completed run replaces it. -/
theorem similarity_job_atomic_witness :
    update_product_similarities [⟨1, 2, 1⟩] twoProducts (.error "boom") false
      = ⟨[⟨1, 2, 1⟩], false⟩
    ∧ (update_product_similarities [⟨1, 2, 1⟩] twoProducts (.ok twoMatrix)
        false).store
      = computeSimilarities ((twoProducts.filter (·.isActive)).map (·.id))
          twoMatrix :=
  ⟨(similarity_job_atomic [⟨1, 2, 1⟩] twoProducts (.error "boom")
      false).2.1 "boom" rfl,
   (similarity_job_atomic [⟨1, 2, 1⟩] twoProducts (.ok twoMatrix)
      false).2.2.2 twoMatrix rfl rfl (by decide)⟩

/-- **C8.** Running the similarity job twice against an unchanged set of
active products (hence the same TF‑IDF/cosine matrix, the computation being
deterministic) produces identical edge stores: the store after the second
run equals the store after the first run. -/
theorem similarity_job_idempotent (store : List ProductSimilarity)
    (products : List Product) (M : Nat → Nat → ℚ) :
    (update_product_similarities
        (update_product_similarities store products (.ok M) false).store
        products (.ok M) false).store
      = (update_product_similarities store products (.ok M) false).store := by
  unfold update_product_similarities
  by_cases h : (products.filter (·.isActive)).length ≤ 1 <;> simp [h]

/-! ### Structure of the computed edge set (for C2) -/

theorem insertAsc_perm (x : Nat × ℚ) (l : List (Nat × ℚ)) :
    List.Perm (insertAsc x l) (x :: l) := by
  induction l with
  | nil => exact List.Perm.refl _
  | cons y ys ih =>
      unfold insertAsc
      by_cases hxy : x.2 ≤ y.2
      · simp [hxy]
      · simp only [if_neg hxy]
        exact (ih.cons y).trans (List.Perm.swap x y ys)

theorem sortPairsAsc_perm (l : List (Nat × ℚ)) :
    List.Perm (sortPairsAsc l) l := by
  induction l with
  | nil => exact List.Perm.refl _
  | cons x xs ih =>
      exact (insertAsc_perm x (sortPairsAsc xs)).trans (ih.cons x)

theorem argsort_perm (row : List ℚ) :
    List.Perm (argsort row) (List.range row.length) := by
  have h := (sortPairsAsc_perm row.enum).map Prod.fst
  rw [List.enum_map_fst] at h
  exact h

/-- Every index produced by `argsort` is in range. -/
theorem mem_argsort_lt {row : List ℚ} {j : Nat} (h : j ∈ argsort row) :
    j < row.length := by
  have := (argsort_perm row).mem_iff.mp h
  simpa using this

/-- Unpack membership in one anchor's edge block. -/
theorem mem_anchorBlock {ids : List Nat} {M : Nat → Nat → ℚ} {i : Nat}
    {e : ProductSimilarity} (he : e ∈ anchorBlock ids M i) :
    ∃ j, j < ids.length ∧ j ≠ i ∧ similarityThreshold < M i j ∧
      e = ⟨ids.getD i 0, ids.getD j 0, M i j⟩ := by
  unfold anchorBlock at he
  simp only [List.mem_map, List.mem_filter, Bool.and_eq_true, decide_eq_true_eq]
    at he
  obtain ⟨j, ⟨hj_top, hji, hsc⟩, rfl⟩ := he
  refine ⟨j, ?_, hji, hsc, rfl⟩
  have hj_arg : j ∈ argsort ((List.range ids.length).map (M i)) := by
    unfold lastN at hj_top
    exact List.drop_subset _ _ hj_top
  have := mem_argsort_lt hj_arg
  simpa using this

theorem anchorBlock_productA {ids : List Nat} {M : Nat → Nat → ℚ} {i : Nat}
    {e : ProductSimilarity} (he : e ∈ anchorBlock ids M i) :
    e.productA = ids.getD i 0 := by
  obtain ⟨j, _, _, _, rfl⟩ := mem_anchorBlock he
  rfl

theorem anchorBlock_length_le (ids : List Nat) (M : Nat → Nat → ℚ)
    (i : Nat) : (anchorBlock ids M i).length ≤ 11 := by
  unfold anchorBlock
  simp only [List.length_map]
  refine le_trans (List.length_filter_le _ _) ?_
  unfold lastN
  simp only [List.length_drop]
  omega

/-- In a duplicate-free id list, distinct in-range positions carry distinct
ids. -/
theorem getD_ne_of_ne {ids : List Nat} (hnd : ids.Nodup) {i j : Nat}
    (hi : i < ids.length) (hj : j < ids.length) (hij : i ≠ j) :
    ids.getD i 0 ≠ ids.getD j 0 := by
  rw [List.getD_eq_getElem ids 0 hi, List.getD_eq_getElem ids 0 hj]
  intro hEq
  have h2 : (⟨i, hi⟩ : Fin ids.length) = ⟨j, hj⟩ :=
    hnd.get_inj_iff.mp (show ids.get ⟨i, hi⟩ = ids.get ⟨j, hj⟩ by
      simpa using hEq)
  exact hij (by simpa using congrArg Fin.val h2)

theorem anchorCount_append (a : Nat) (l₁ l₂ : List ProductSimilarity) :
    anchorCount a (l₁ ++ l₂) = anchorCount a l₁ + anchorCount a l₂ := by
  unfold anchorCount
  rw [List.filter_append, List.length_append]

theorem anchorCount_anchorBlock_eq_zero {ids : List Nat} {M : Nat → Nat → ℚ}
    {i a : Nat} (h : ids.getD i 0 ≠ a) :
    anchorCount a (anchorBlock ids M i) = 0 := by
  unfold anchorCount
  rw [List.length_eq_zero, List.filter_eq_nil_iff]
  intro e he
  simp only [anchorBlock_productA he, beq_iff_eq]
  exact h

theorem anchorCount_flatMap_eq_zero {ids : List Nat} {M : Nat → Nat → ℚ}
    {a : Nat} {L : List Nat} (h : ∀ i ∈ L, ids.getD i 0 ≠ a) :
    anchorCount a (L.flatMap (anchorBlock ids M)) = 0 := by
  induction L with
  | nil => rfl
  | cons i L' ih =>
      rw [List.flatMap_cons, anchorCount_append,
        anchorCount_anchorBlock_eq_zero (h i (List.mem_cons_self i L')),
        ih (fun j hj => h j (List.mem_cons_of_mem i hj))]

theorem anchorCount_flatMap_le (ids : List Nat) (M : Nat → Nat → ℚ)
    (a : Nat) (L : List Nat) (hnd : ids.Nodup) (hL : L.Nodup)
    (hbound : ∀ i ∈ L, i < ids.length) :
    anchorCount a (L.flatMap (anchorBlock ids M)) ≤ 11 := by
  induction L with
  | nil => simp [anchorCount]
  | cons i L' ih =>
      rw [List.flatMap_cons, anchorCount_append]
      have hiL' : i ∉ L' := (List.nodup_cons.mp hL).1
      have hL' : L'.Nodup := (List.nodup_cons.mp hL).2
      have hbound' : ∀ j ∈ L', j < ids.length :=
        fun j hj => hbound j (List.mem_cons_of_mem i hj)
      by_cases hia : ids.getD i 0 = a
      · have hz : anchorCount a (L'.flatMap (anchorBlock ids M)) = 0 := by
          refine anchorCount_flatMap_eq_zero (fun j hj => ?_)
          have hji : j ≠ i := fun hji => hiL' (hji ▸ hj)
          exact hia ▸ getD_ne_of_ne hnd (hbound' j hj)
            (hbound i (List.mem_cons_self i L')) hji
        rw [hz]
        have := le_trans (List.length_filter_le
          (fun e => e.productA == a) (anchorBlock ids M i))
          (anchorBlock_length_le ids M i)
        simpa [anchorCount] using this
      · rw [anchorCount_anchorBlock_eq_zero hia]
        simpa using ih hL' hbound'

/-- **C2 (amended).** After a completed replacement run of the similarity
job, every stored edge satisfies `productA ≠ productB` and
`similarity_score > 0.1`, and every anchor product has at most **11**
edges (not 10: the `[-11:]` slice of `np.argsort` only leaves 10 after
removing self when the anchor's own index lands in the slice, which ties
can prevent). -/
theorem similarity_edges_invariants (store : List ProductSimilarity)
    (products : List Product) (M : Nat → Nat → ℚ)
    (hnd : ((products.filter (·.isActive)).map (·.id)).Nodup)
    (hcnt : 2 ≤ (products.filter (·.isActive)).length) :
    (∀ e ∈ (update_product_similarities store products (.ok M) false).store,
        e.productA ≠ e.productB ∧ similarityThreshold < e.score)
    ∧ ∀ a, anchorCount a
        (update_product_similarities store products (.ok M) false).store
          ≤ 11 := by
  have hrepl : (update_product_similarities store products (.ok M)
      false).store
      = computeSimilarities ((products.filter (·.isActive)).map (·.id)) M := by
    unfold update_product_similarities
    simp only []
    rw [if_neg (by omega)]
    rfl
  rw [hrepl]
  set ids := (products.filter (·.isActive)).map (·.id) with hids
  constructor
  · intro e he
    unfold computeSimilarities at he
    simp only [List.mem_flatMap, List.mem_range] at he
    obtain ⟨i, hi, hbe⟩ := he
    obtain ⟨j, hj, hji, hsc, rfl⟩ := mem_anchorBlock hbe
    exact ⟨getD_ne_of_ne hnd hi hj (fun h => hji h.symm), hsc⟩
  · intro a
    unfold computeSimilarities
    exact anchorCount_flatMap_le ids M a (List.range ids.length) hnd
      (List.nodup_range _) (fun i hi => List.mem_range.mp hi)

/-- Witness for C2 (amended) on the two-product catalog: the concrete edge
`1 → 2` with score `1/2` is stored and satisfies the invariants, and anchor
`1` stays within the bound. -/
theorem similarity_edges_invariants_witness :
    ((⟨1, 2, mkRat 1 2⟩ : ProductSimilarity).productA
        ≠ (⟨1, 2, mkRat 1 2⟩ : ProductSimilarity).productB
      ∧ similarityThreshold
          < (⟨1, 2, mkRat 1 2⟩ : ProductSimilarity).score)
    ∧ anchorCount 1 (update_product_similarities [] twoProducts
        (.ok twoMatrix) false).store ≤ 11 :=
  ⟨(similarity_edges_invariants [] twoProducts twoMatrix (by decide)
      (by decide)).1 ⟨1, 2, mkRat 1 2⟩ (by decide),
   (similarity_edges_invariants [] twoProducts twoMatrix (by decide)
      (by decide)).2 1⟩

/-- **C2 (counterexample).** The claim's per-anchor bound of `K = 10` fails:
with twelve textually identical active products the TF‑IDF/cosine matrix is
all-ones, `np.argsort` on the constant row returns `arange(12)`, the
`[-11:]` slice is `[1, …, 11]`, so for the first product the self index `0`
is *not* in the slice, nothing is skipped, and all 11 edges (score `1 >
0.1`) are persisted for anchor product `1`. -/
theorem similarity_topK_counterexample :
    anchorCount 1 (update_product_similarities [] identicalCatalog
      (.ok (fun _ _ => 1)) false).store = 11 := by decide

/-! ### Recommendation service theorems (C3, C9, C10) -/

theorem insertSorted_perm (le : Product → Product → Bool) (x : Product)
    (l : List Product) : List.Perm (insertSorted le x l) (x :: l) := by
  induction l with
  | nil => exact List.Perm.refl _
  | cons y ys ih =>
      unfold insertSorted
      by_cases hxy : le x y = true
      · simp [hxy]
      · simp only [if_neg hxy]
        exact (ih.cons y).trans (List.Perm.swap x y ys)

theorem sortProductsBy_perm (le : Product → Product → Bool)
    (l : List Product) : List.Perm (sortProductsBy le l) l := by
  induction l with
  | nil => exact List.Perm.refl _
  | cons x xs ih =>
      exact (insertSorted_perm le x (sortProductsBy le xs)).trans (ih.cons x)

/-- **C3.** Given a similarity edge store free of self-loops (which is what
the job stores, by C2), the product-seeded recommendation list never
contains the seed's own id — on the precomputed-similarity path because a
candidate equal to the seed would require a self-loop edge, and on the
same-category fallback path because of the explicit `exclude(id=product.id)`. -/
theorem recommendations_exclude_seed (edges : List ProductSimilarity)
    (catalog : List Product) (seed : Product) (limit : Nat)
    (hsl : ∀ e ∈ edges, e.productA ≠ e.productB) :
    ∀ q ∈ get_similar_products edges catalog seed limit, q.id ≠ seed.id := by
  intro q hq
  unfold get_similar_products at hq
  by_cases hemp : ((sortProductsBy
      (fun x y => descNullsFirst (simScore edges seed x)
        (simScore edges seed y))
      (precomputedCandidates edges catalog seed)).take limit).isEmpty
  · rw [if_pos hemp] at hq
    have hq1 := List.take_subset _ _ hq
    have hq2 := (sortProductsBy_perm _ _).mem_iff.mp hq1
    have hcond := (List.mem_filter.mp hq2).2
    simp only [Bool.and_eq_true, Bool.not_eq_true', beq_eq_false_iff_ne,
      ne_eq] at hcond
    exact hcond.2
  · rw [if_neg hemp] at hq
    have hq1 := List.take_subset _ _ hq
    have hq2 := (sortProductsBy_perm _ _).mem_iff.mp hq1
    have hcond := (List.mem_filter.mp hq2).2
    intro hid
    simp only [Bool.and_eq_true, Bool.or_eq_true, List.any_eq_true,
      Bool.and_eq_true, beq_iff_eq] at hcond
    obtain ⟨_, ⟨e, hemem, heB, heA⟩ | ⟨e, hemem, heA, heB⟩⟩ := hcond
    · exact hsl e hemem (by rw [heA, heB, hid])
    · exact hsl e hemem (by rw [heA, heB, hid])

/-- Witness for C3: with the edge `1 → 2` (score `4/5`), seeding at product
`1` returns `[prodB]`, and the theorem rules the seed out of it. -/
theorem recommendations_exclude_seed_witness :
    prodB.id ≠ prodA.id :=
  recommendations_exclude_seed [⟨1, 2, mkRat 4 5⟩] twoProducts prodA 5
    (by decide) prodB (by decide)

/-- **C9 (code bug).** The live `RecommendationAPIView` (the second
class definition at `views.py` line 339, the one `urls.py` routes) has no
`_record_recommendation_events` method, so the impression-recording call on
every would-be 200 path raises `AttributeError` and zero
`RecommendationEvent` rows are ever created — there is no return path that
records impressions.  At the failing input — a plain product-seeded request
on the two-product catalog, the very request `tests.py`'s
`test_get_product_recommendations` sends expecting HTTP 200 — the fresh
path computes and caches the one-item list `[prodB]` (line 407) and then
crashes at line 410 with no response and no events. -/
theorem recommendation_impressions_bug :
    (recommendationPost [] twoProducts [1] [] (some 1) none 5).outcome
        = RecOutcome.attrError
    ∧ (recommendationPost [] twoProducts [1] []
        (some 1) none 5).eventsCreated = []
    ∧ (recommendationPost [] twoProducts [1] [] (some 1) none 5).recCache
        = [(⟨"product", 1, 5⟩, [prodB])] := by decide

/-- **C10 (amended).** A recommendation request is accepted iff at least one
of `productID`/`categoryID` is present *and nonzero* (Python truthiness:
`0` counts as absent, so a request supplying only `productID = 0` is
rejected); whenever `productID` is nonzero the request is dispatched to the
product-seeded path and `categoryID` is entirely ignored — the request's
outcome, event rows and cache effect are independent of `categoryID`. -/
theorem recommendation_id_dispatch (edges : List ProductSimilarity)
    (catalog : List Product) (categories : List Nat)
    (recCache : List (RecCacheKey × List Product)) (p : Int)
    (c1 c2 : Option Int) (limit : Nat) (hp : p ≠ 0) :
    RecommendationRequestSerializer_validate (some p) c1 = true
    ∧ RecommendationRequestSerializer_validate none none = false
    ∧ recommendationPost edges catalog categories recCache (some p) c1 limit
        = recommendationPost edges catalog categories recCache (some p) c2
            limit := by
  have htr : truthyInt (some p) = true := by simp [truthyInt, hp]
  refine ⟨by simp [RecommendationRequestSerializer_validate, htr], rfl, ?_⟩
  unfold recommendationPost
  simp [RecommendationRequestSerializer_validate, htr]

/-- Witness for C10 (amended) at `productID = 1`: accepted with a
`categoryID` also supplied, and the request's effect ignores the
`categoryID`. -/
theorem recommendation_id_dispatch_witness :
    RecommendationRequestSerializer_validate (some 1) (some 7) = true
    ∧ RecommendationRequestSerializer_validate none none = false
    ∧ recommendationPost [] twoProducts [1] [] (some 1) (some 7) 5
        = recommendationPost [] twoProducts [1] [] (some 1) none 5 :=
  recommendation_id_dispatch [] twoProducts [1] [] 1 (some 7) none 5
    (by decide)

/-- **C10 (counterexample).** A request supplying `productID = 0` (and no
`categoryID`) is rejected even though it supplies a `productID`; and with
`productID = 0` present, `categoryID` is *not* ignored: the category branch
handles the request, so `categoryID = 1` (an existing category) ends in the
truncated method's `None`-response server error while `categoryID = 99`
(unknown) yields a 404 — the outcome depends on `categoryID` and is never
the product-seeded path's. -/
theorem recommendation_zero_id_counterexample :
    RecommendationRequestSerializer_validate (some 0) none = false
    ∧ (recommendationPost [] twoProducts [1] [] (some 0) (some 1) 5).outcome
        = RecOutcome.noneResponse
    ∧ (recommendationPost [] twoProducts [1] [] (some 0) (some 99) 5).outcome
        = RecOutcome.notFound := by decide

/-! ### Search engine theorems (C4–C7) -/

theorem avgRating_some_ratings_ne_nil {p : Product} {a : ℚ}
    (h : p.avgRating = some a) : p.ratings ≠ [] := by
  unfold Product.avgRating at h
  by_cases he : p.ratings.isEmpty
  · rw [if_pos he] at h
    exact Option.noConfusion h
  · intro hnil
    exact he (by rw [hnil]; rfl)

theorem mem_applyTextStage {fts : FtsBackend} {q : String}
    {l : List Product} {p : Product} (h : p ∈ applyTextStage fts q l) :
    p ∈ l := by
  unfold applyTextStage at h
  by_cases h0 : q = ""
  · rwa [if_pos h0] at h
  · rw [if_neg h0] at h
    by_cases h1 : fts.available
    · rw [if_pos h1] at h
      exact (List.mem_filter.mp h).1
    · rw [if_neg h1] at h
      exact (List.mem_filter.mp h).1

/-- Decompose membership in the conjunctive-filter stage. -/
theorem mem_applyFilters {req : SearchRequest} {l : List Product}
    {p : Product} (h : p ∈ applyFilters req l) :
    p ∈ l
    ∧ (∀ m, req.minPrice = some m → m ≤ p.price)
    ∧ (∀ m, req.maxPrice = some m → p.price ≤ m)
    ∧ (req.inStock = some true → 0 < p.stock)
    ∧ (∀ c, req.categoryId = some c → c ≠ 0 → (p.categoryId : Int) = c)
    ∧ (∀ k, req.rating = some k →
        ∃ a, p.avgRating = some a ∧ (k : ℚ) ≤ a) := by
  unfold applyFilters at h
  -- rating stage
  have step5 : ∀ {l' : List Product},
      p ∈ (match req.rating with
        | none => l'
        | some k => l'.filter (fun x =>
            match x.avgRating with
            | none => false
            | some a => decide ((k : ℚ) ≤ a))) →
      p ∈ l' ∧ (∀ k, req.rating = some k →
        ∃ a, p.avgRating = some a ∧ (k : ℚ) ≤ a) := by
    intro l' h'
    cases hr : req.rating with
    | none =>
        rw [hr] at h'
        exact ⟨h', fun k hk => Option.noConfusion hk⟩
    | some k =>
        rw [hr] at h'
        have := List.mem_filter.mp h'
        refine ⟨this.1, fun k' hk' => ?_⟩
        have hk : k' = k := (Option.some.inj hk').symm
        subst hk
        cases ha : p.avgRating with
        | none =>
            have := this.2
            rw [ha] at this
            exact Bool.noConfusion this
        | some a =>
            have h2 := this.2
            rw [ha] at h2
            exact ⟨a, rfl, of_decide_eq_true h2⟩
  -- stock stage
  have step4 : ∀ {l' : List Product},
      p ∈ (if req.inStock.getD false then
            l'.filter (fun x => decide (0 < x.stock)) else l') →
      p ∈ l' ∧ (req.inStock = some true → 0 < p.stock) := by
    intro l' h'
    by_cases hs : req.inStock.getD false
    · rw [if_pos hs] at h'
      have := List.mem_filter.mp h'
      exact ⟨this.1, fun _ => of_decide_eq_true this.2⟩
    · rw [if_neg hs] at h'
      refine ⟨h', fun hset => absurd ?_ hs⟩
      rw [hset]
      rfl
  -- max price stage
  have step3 : ∀ {l' : List Product},
      p ∈ (match req.maxPrice with
        | none => l'
        | some m => l'.filter (fun x => decide (x.price ≤ m))) →
      p ∈ l' ∧ (∀ m, req.maxPrice = some m → p.price ≤ m) := by
    intro l' h'
    cases hm : req.maxPrice with
    | none =>
        rw [hm] at h'
        exact ⟨h', fun m hmm => Option.noConfusion hmm⟩
    | some m =>
        rw [hm] at h'
        have := List.mem_filter.mp h'
        refine ⟨this.1, fun m' hm' => ?_⟩
        have : m' = m := (Option.some.inj hm').symm
        subst this
        exact of_decide_eq_true (List.mem_filter.mp h').2
  -- min price stage
  have step2 : ∀ {l' : List Product},
      p ∈ (match req.minPrice with
        | none => l'
        | some m => l'.filter (fun x => decide (m ≤ x.price))) →
      p ∈ l' ∧ (∀ m, req.minPrice = some m → m ≤ p.price) := by
    intro l' h'
    cases hm : req.minPrice with
    | none =>
        rw [hm] at h'
        exact ⟨h', fun m hmm => Option.noConfusion hmm⟩
    | some m =>
        rw [hm] at h'
        have := List.mem_filter.mp h'
        refine ⟨this.1, fun m' hm' => ?_⟩
        have : m' = m := (Option.some.inj hm').symm
        subst this
        exact of_decide_eq_true (List.mem_filter.mp h').2
  -- category stage
  have step1 : ∀ {l' : List Product},
      p ∈ (if truthyInt req.categoryId then
            l'.filter (fun x => (x.categoryId : Int) == req.categoryId.getD 0)
          else l') →
      p ∈ l' ∧ (∀ c, req.categoryId = some c → c ≠ 0 →
        (p.categoryId : Int) = c) := by
    intro l' h'
    by_cases hc : truthyInt req.categoryId
    · rw [if_pos hc] at h'
      have := List.mem_filter.mp h'
      refine ⟨this.1, fun c hcc _ => ?_⟩
      have h2 := eq_of_beq this.2
      rw [hcc] at h2
      exact h2
    · rw [if_neg hc] at h'
      refine ⟨h', fun c hcc hc0 => absurd ?_ hc⟩
      rw [hcc]
      simp [truthyInt, hc0]
  have h5 := step5 h
  have h4 := step4 h5.1
  have h3 := step3 h4.1
  have h2 := step2 h3.1
  have h1 := step1 h2.1
  exact ⟨h1.1, h2.2, h3.2, h4.2, h1.2, h5.2⟩

theorem applySort_perm (fts : FtsBackend) (req : SearchRequest)
    (l : List Product) : List.Perm (applySort fts req l) l := by
  unfold applySort
  repeat' split
  all_goals first
    | exact sortProductsBy_perm _ _
    | exact List.Perm.refl _

/-- **C4 (amended).** Every product in a search response is active, lies
within the inclusive price bounds whenever `minPrice`/`maxPrice` are set,
has positive stock whenever `inStock` is set (to true), equals the
requested category whenever `categoryID` is set *to a nonzero id* (a
`categoryID` of `0` is falsy in Python and disables the filter), and has
mean review rating at least `minRating` whenever `minRating` is set —
products with zero reviews (SQL `AVG` = `NULL`) failing that filter. -/
theorem search_results_satisfy_filters (fts : FtsBackend)
    (catalog : List Product) (req : SearchRequest) :
    ∀ q ∈ (runSearch fts catalog req).results,
      q.isActive = true
      ∧ (∀ m, req.minPrice = some m → m ≤ q.price)
      ∧ (∀ m, req.maxPrice = some m → q.price ≤ m)
      ∧ (req.inStock = some true → 0 < q.stock)
      ∧ (∀ c, req.categoryId = some c → c ≠ 0 → (q.categoryId : Int) = c)
      ∧ (∀ k, req.rating = some k →
          q.ratings ≠ [] ∧ ∃ a, q.avgRating = some a ∧ (k : ℚ) ≤ a) := by
  intro q hq
  have hq0 : q ∈ ((applySort fts req (searchMatches fts catalog req)).drop
      ((req.page - 1) * req.limit)).take req.limit := hq
  have hq1 : q ∈ applySort fts req (searchMatches fts catalog req) :=
    List.drop_subset _ _ (List.take_subset _ _ hq0)
  have hq2 : q ∈ searchMatches fts catalog req :=
    (applySort_perm fts req _).mem_iff.mp hq1
  have hf := mem_applyFilters hq2
  have hact : q.isActive = true :=
    (List.mem_filter.mp (mem_applyTextStage hf.1)).2
  refine ⟨hact, hf.2.1, hf.2.2.1, hf.2.2.2.1, hf.2.2.2.2.1,
    fun k hk => ?_⟩
  obtain ⟨a, ha, hka⟩ := hf.2.2.2.2.2 k hk
  exact ⟨avgRating_some_ratings_ne_nil ha, a, ha, hka⟩

/-- Witness for C4 (amended): a filtered request on the two-product catalog
returns `prodA`, which satisfies all the set filters. -/
theorem search_results_satisfy_filters_witness :
    prodA.isActive = true
    ∧ ((150 : ℚ) ≤ prodA.price ∧ 0 < prodA.stock)
    ∧ prodA.ratings ≠ [] :=
  ⟨(search_results_satisfy_filters noFts twoProducts
      { minPrice := some 150, inStock := some true, rating := some 4 } prodA
      (by decide)).1,
   ⟨(search_results_satisfy_filters noFts twoProducts
      { minPrice := some 150, inStock := some true, rating := some 4 } prodA
      (by decide)).2.1 150 rfl,
    (search_results_satisfy_filters noFts twoProducts
      { minPrice := some 150, inStock := some true, rating := some 4 } prodA
      (by decide)).2.2.2.1 rfl⟩,
   ((search_results_satisfy_filters noFts twoProducts
      { minPrice := some 150, inStock := some true, rating := some 4 } prodA
      (by decide)).2.2.2.2.2 4 rfl).1⟩

/-- **C4 (counterexample).** With `categoryID = 0` the category filter is
disabled (`if category_id:` is false for `0`), so the response contains
products whose category differs from the requested one: the claim's
"equals the requested category whenever categoryID is set" fails. -/
theorem search_category_zero_counterexample :
    reqCat0.categoryId = some 0
    ∧ (runSearch noFts twoProducts reqCat0).results = [prodA, prodB]
    ∧ prodA.categoryId ≠ 0 := by decide

/-- **C5.** For every search request (with the validated `limit ≥ 1`):
`total` counts the catalog entries matching all filters, independent of
`page`/`limit`; `pages = ⌈total / limit⌉`; `results` is the
`[(page-1)·limit, page·limit)` slice of the sorted match list (which is a
permutation of the match list); and a page beyond the last yields an empty
slice (`total`/`pages` being page-independent). -/
theorem search_pagination_correct (fts : FtsBackend)
    (catalog : List Product) (req : SearchRequest) (hl : 1 ≤ req.limit) :
    (runSearch fts catalog req).total
        = (searchMatches fts catalog req).length
    ∧ (∀ p' l', (runSearch fts catalog
          { req with page := p', limit := l' }).total
        = (runSearch fts catalog req).total)
    ∧ (runSearch fts catalog req).pages
        = (runSearch fts catalog req).total ⌈/⌉ req.limit
    ∧ (runSearch fts catalog req).results
        = ((applySort fts req (searchMatches fts catalog req)).drop
            ((req.page - 1) * req.limit)).take req.limit
    ∧ List.Perm (applySort fts req (searchMatches fts catalog req))
        (searchMatches fts catalog req)
    ∧ ((runSearch fts catalog req).pages < req.page →
        (runSearch fts catalog req).results = []) := by
  refine ⟨rfl, fun p' l' => rfl, ?_, rfl, applySort_perm fts req _, ?_⟩
  · rw [Nat.ceilDiv_eq_add_pred_div]
    rfl
  · intro hbeyond
    have hpages : (runSearch fts catalog req).pages
        = ((searchMatches fts catalog req).length + req.limit - 1)
            / req.limit := rfl
    have hlen : (applySort fts req (searchMatches fts catalog req)).length
        = (searchMatches fts catalog req).length :=
      (applySort_perm fts req _).length_eq
    have hceil : (searchMatches fts catalog req).length
        ≤ ((searchMatches fts catalog req).length + req.limit - 1)
            / req.limit * req.limit := by
      have h1 := le_smul_ceilDiv (b := (searchMatches fts catalog req).length)
        (show 0 < req.limit by omega)
      rw [smul_eq_mul, Nat.ceilDiv_eq_add_pred_div, Nat.mul_comm] at h1
      exact h1
    have hoff : (applySort fts req (searchMatches fts catalog req)).length
        ≤ (req.page - 1) * req.limit := by
      rw [hlen]
      calc (searchMatches fts catalog req).length
          ≤ ((searchMatches fts catalog req).length + req.limit - 1)
              / req.limit * req.limit := hceil
        _ ≤ (req.page - 1) * req.limit := by
            refine Nat.mul_le_mul_right _ ?_
            rw [hpages] at hbeyond
            omega
    show ((applySort fts req (searchMatches fts catalog req)).drop
        ((req.page - 1) * req.limit)).take req.limit = []
    rw [List.drop_eq_nil_of_le hoff, List.take_nil]

/-- Witness for C5 on the two-product catalog at `limit = 1`, `page = 5`:
the beyond-last-page slice is empty while `total`/`pages` stay correct. -/
theorem search_pagination_correct_witness :
    (runSearch noFts twoProducts reqPage5).total
        = (searchMatches noFts twoProducts reqPage5).length
    ∧ (runSearch noFts twoProducts
        { reqPage5 with page := 1, limit := 20 }).total
        = (runSearch noFts twoProducts reqPage5).total
    ∧ (runSearch noFts twoProducts reqPage5).pages
        = (runSearch noFts twoProducts reqPage5).total ⌈/⌉ reqPage5.limit
    ∧ (runSearch noFts twoProducts reqPage5).results = [] :=
  ⟨(search_pagination_correct noFts twoProducts reqPage5 (by decide)).1,
   (search_pagination_correct noFts twoProducts reqPage5 (by decide)).2.1
     1 20,
   (search_pagination_correct noFts twoProducts reqPage5
     (by decide)).2.2.1,
   (search_pagination_correct noFts twoProducts reqPage5
     (by decide)).2.2.2.2.2 (by decide)⟩

/-- **C6 (amended).** For an identified caller with non-empty `queryText`,
a `SearchQuery` row with `results_count = total` is appended on the
*freshly computed* return path only; on a cache hit the endpoint returns
the cached response before the logging step, appending nothing. -/
theorem search_query_logging (fts : FtsBackend) (catalog : List Product)
    (st : SearchState) (authenticated : Bool) (req : SearchRequest) :
    (∀ resp, req.query ≠ "" →
        lookupSearchCache st.cache (searchCacheKey req) = some resp →
        searchPost fts catalog st authenticated req = (resp, st))
    ∧ (lookupSearchCache st.cache (searchCacheKey req) = none →
        authenticated = true → req.query ≠ "" →
        searchPost fts catalog st authenticated req
          = (runSearch fts catalog req,
             { cache := (searchCacheKey req, runSearch fts catalog req)
                 :: st.cache,
               queryLog := st.queryLog
                 ++ [{ queryText := req.query,
                       resultsCount :=
                         (runSearch fts catalog req).total }] })) := by
  constructor
  · intro resp hne hhit
    have hb : (req.query != "") = true := by
      simpa using hne
    unfold searchPost
    rw [hb]
    simp [hhit]
  · intro hmiss hauth hne
    have hb : (req.query != "") = true := by
      simpa using hne
    subst hauth
    unfold searchPost
    rw [hb]
    simp [hmiss]

/-- Witness for C6 (amended): on an empty cache, an authenticated search
for `"premium"` appends exactly one row with the response's total. -/
theorem search_query_logging_witness :
    searchPost noFts twoProducts stEmpty true reqPremium
      = (runSearch noFts twoProducts reqPremium,
         { cache := (searchCacheKey reqPremium,
             runSearch noFts twoProducts reqPremium) :: stEmpty.cache,
           queryLog := stEmpty.queryLog
             ++ [{ queryText := reqPremium.query,
                   resultsCount :=
                     (runSearch noFts twoProducts reqPremium).total }] }) :=
  (search_query_logging noFts twoProducts stEmpty true reqPremium).2
    (by decide) rfl (by decide)

/-- **C6 (counterexample).** A cache hit for an authenticated caller with
non-empty query text returns the cached response and appends **no**
`SearchQuery` row: the telemetry step of lines 161–165 is unreachable from
the early return of lines 67–68. -/
theorem search_cache_hit_no_log_counterexample :
    reqPremium.query ≠ ""
    ∧ (searchPost noFts twoProducts stHit true reqPremium).1 = respHit
    ∧ (searchPost noFts twoProducts stHit true reqPremium).2.queryLog
        = [] := by decide

/-- **C7 (code bug).** The `sort_by` `ChoiceField` omits `"relevance"` from
its `choices` even though `"relevance"` is its own declared default (and
the repository's tests post `sort_by = "relevance"` expecting success): a
request explicitly specifying `sortBy = relevance` is rejected by
validation, while all seven listed choices — and an absent `sort_by`,
which defaults to `"relevance"` — are accepted. -/
theorem sortBy_relevance_rejected :
    AdvancedSearchSerializer_isValid { sortBy := some "relevance" } = false
    ∧ AdvancedSearchSerializer_isValid {} = true
    ∧ (validatedSearch {}).sortBy = "relevance"
    ∧ AdvancedSearchSerializer_isValid { sortBy := some "price_asc" } = true
    ∧ AdvancedSearchSerializer_isValid { sortBy := some "price_desc" } = true
    ∧ AdvancedSearchSerializer_isValid { sortBy := some "name_asc" } = true
    ∧ AdvancedSearchSerializer_isValid { sortBy := some "name_desc" } = true
    ∧ AdvancedSearchSerializer_isValid { sortBy := some "rating" } = true
    ∧ AdvancedSearchSerializer_isValid { sortBy := some "newest" } = true
    ∧ AdvancedSearchSerializer_isValid { sortBy := some "popularity" }
        = true := by decide

end Ecommerce
